import Mathlib

/-!
Verification of the douyin-api service layer (`app.py`).

The file embeds the route handlers and helper functions of `app.py` as pure
Lean functions.  External collaborators that live outside the excerpted
source (the `VideoResolver`, the transcriber, the AI processor, the feishu
client, the email sender and the `Config` flags) are passed in as explicit
parameters, so every theorem quantifies over their behavior.  Python dicts
used as JSON payloads are modelled as association lists of `JVal`; Python
floats are modelled as rationals; `None`-able strings are modelled with `""`
standing for an absent value.
-/

namespace DouyinApp

/-- JSON-like values appearing in the flat response dictionaries of `app.py`. -/
inductive JVal where
  | s (v : String)
  | q (v : ℚ)
  | b (v : Bool)
deriving DecidableEq, Repr

/-- A Python dict with string keys, as used for every JSON payload in `app.py`. -/
abbrev JObj := List (String × JVal)

/-- Python `d.get(k)`: the first binding for `k`, if any. -/
def jget : JObj → String → Option JVal
  | [], _ => none
  | (k, v) :: rest, key => if k = key then some v else jget rest key

/-- Python truthiness of a `dict.get` result (`None`/`False`/`""`/`0` are falsy). -/
def jtruthy : Option JVal → Bool
  | none => false
  | some (.s v) => v != ""
  | some (.q v) => v != 0
  | some (.b v) => v

/-- Extract the string stored in a `dict.get` result (used only where the
Python code indexes a key that is known to hold a string). -/
def jstr : Option JVal → String
  | some (.s v) => v
  | _ => ""

/-- Python `a or b` on strings: the empty string is falsy. -/
def pyOr (a b : String) : String := if a = "" then b else a

/-- Python `str.strip()`: drop whitespace from both ends.  (Written over the
character list so that it evaluates by kernel reduction.) -/
def pyStrip (s : String) : String :=
  String.mk (((s.data.dropWhile Char.isWhitespace).reverse.dropWhile Char.isWhitespace).reverse)

/-- Round half to even on rationals, the semantics of the Python builtin
round applied to an exactly-representable value. -/
def roundHalfEven (x : ℚ) : ℤ :=
  if Int.fract x < 1/2 then Int.floor x
  else if Int.fract x > 1/2 then Int.floor x + 1
  else if Int.floor x % 2 = 0 then Int.floor x else Int.floor x + 1

/-- Python `round(x, 1)`: round to one decimal place. -/
def pyRound1 (x : ℚ) : ℚ := (roundHalfEven (x * 10) : ℚ) / 10

/-- Modelled from the spec: the `VideoRecord` data model lives in `models.py`,
which is not under `src/`.  Fields follow spec section 3 and the attribute
accesses in `app.py` (`title`, `author`, `aweme_id`, `video_play_url`,
`duration_seconds`, plus the constructor arguments `title` and `url`). -/
structure VideoRecord where
  title : String := ""
  url : String := ""
  author : String := ""
  aweme_id : String := ""
  video_play_url : String := ""
  duration_seconds : ℚ := 0
deriving DecidableEq, Repr

/-- The record `_resolve_video` builds for the input url
(`VideoRecord(title="", url=url)`). -/
def initialRecord (url : String) : VideoRecord := { title := "", url := url }

/-- Function `_resolve_video` from `app.py`: build an empty record carrying the input
url, hand it to the resolver collaborator, and normalize the outcome into a
response dict.  `resolve` stands for `resolver.resolve`. -/
def resolve_video (resolve : VideoRecord → VideoRecord) (url : String) : JObj :=
  let result := resolve (initialRecord url)
  if result.video_play_url = "" then
    [("success", .b false), ("error", .s "解析失败，请检查链接是否有效")]
  else
    [("success", .b true),
     ("title", .s (pyOr result.title "")),
     ("author", .s (pyOr result.author "")),
     ("aweme_id", .s result.aweme_id),
     ("play_url", .s result.video_play_url),
     ("duration", .q (pyRound1 result.duration_seconds))]

/-- A resolver used in concrete witnesses: resolution succeeds with an empty
title, a 12.3-second duration and a fixed play url. -/
def resolveOk : VideoRecord → VideoRecord := fun v =>
  { v with title := "", author := "作者", aweme_id := "123",
           video_play_url := "http://cdn/x.mp4", duration_seconds := 123/10 }

/-- Result of `transcriber.transcribe` (collaborator outside `src/`): text,
duration and an error indicator, per spec section 6(b). -/
structure TranscribeResult where
  text : String := ""
  duration : ℚ := 0
  error : String := ""
deriving DecidableEq, Repr

/-- Result of `ai.process` (collaborator outside `src/`): success flag,
corrected text and summary, per the attribute accesses in `_ai_process`. -/
structure AIResult where
  success : Bool := false
  corrected_text : String := ""
  summary : String := ""
deriving DecidableEq, Repr

/-- Keyword arguments of `client.save_transcript` in `api_save_feishu`. -/
structure SaveArgs where
  title : String
  author : String
  source_url : String
  duration : JVal
  text : String
  summary : String
deriving DecidableEq, Repr

/-- Keyword arguments of `sender.send_transcript` in `api_email`. -/
structure SendArgs where
  to_addr : String
  title : String
  author : String
  source_url : String
  duration : JVal
  text : String
  summary : String
deriving DecidableEq, Repr

/-- Result of `client.save_transcript` (feishu collaborator). -/
structure FeishuResult where
  success : Bool := false
  doc_url : String := ""
  doc_title : String := ""
  error : String := ""
deriving DecidableEq, Repr

/-- Result of `sender.send_transcript` (email collaborator). -/
structure EmailResult where
  success : Bool := false
  error : String := ""
deriving DecidableEq, Repr

/-- The collaborators and configuration visible to the route handlers of
`app.py`.  Function fields stand for single collaborator methods; the `Bool`
fields stand for the `Config.is_*_enabled()` checks, which are fixed for the
lifetime of a process (the lazily-built clients exist exactly when their
feature is enabled, see `get_lazy` below). -/
structure AppEnv where
  resolve : VideoRecord → VideoRecord
  transcriberConfigured : Bool
  transcribe : String → TranscribeResult
  aiConfigured : Bool
  aiProcessFn : String → AIResult
  aiGenerateTitle : String → String
  feishuConfigured : Bool
  feishuSave : SaveArgs → FeishuResult
  emailConfigured : Bool
  emailSend : SendArgs → EmailResult
  emailTo : String

/-- The proxy rewriting applied by `_transcribe_video` before any vendor call. -/
def proxyUrl (play_url : String) : String :=
  "http://127.0.0.1:3102/api/download?url=" ++ play_url

/-- Function `_transcribe_video` from `app.py`.  Returns the response dict together
with the url actually handed to `transcriber.transcribe` (`none` when the
transcriber is unconfigured and no call happens at all). -/
def transcribe_video (env : AppEnv) (play_url : String) : JObj × Option String :=
  if env.transcriberConfigured = false then
    ([("success", .b false), ("error", .s "转写功能未配置")], none)
  else
    let result := env.transcribe (proxyUrl play_url)
    if result.error = "" then
      ([("success", .b true), ("text", .s result.text),
        ("duration", .q (pyRound1 result.duration))], some (proxyUrl play_url))
    else
      ([("success", .b false), ("error", .s result.error)], some (proxyUrl play_url))

/-- Function `_ai_process` from `app.py`.  Returns the response dict and whether the
AI collaborator was used at all. -/
def ai_process (env : AppEnv) (text : String) (title : String) : JObj × Bool :=
  if env.aiConfigured = false then
    ([("corrected", .s text), ("summary", .s ""), ("title", .s (pyOr title "未知视频"))], false)
  else
    let ai_result := env.aiProcessFn text
    let corrected := if ai_result.success then ai_result.corrected_text else text
    let summary := if ai_result.success then ai_result.summary else ""
    let title1 :=
      if title = "" ∨ title = "未知" then
        (if env.aiGenerateTitle corrected = "" then title else env.aiGenerateTitle corrected)
      else title
    ([("corrected", .s corrected), ("summary", .s summary),
      ("title", .s (pyOr title1 "未知视频"))], true)

/-- Which collaborators a handler actually invoked while serving one request:
the url handed to `transcriber.transcribe` (if any), whether `ai` was used,
and the arguments of the document-store / email calls (if any). -/
structure CallLog where
  transcribeUrl : Option String := none
  aiCalled : Bool := false
  feishuArgs : Option SaveArgs := none
  emailArgs : Option SendArgs := none
deriving DecidableEq, Repr

/-- The empty call log: no collaborator beyond the resolver was invoked. -/
def noCalls : CallLog := {}

/-- Handler `api_transcript` from `app.py`.  `body_url` is the `"url"` field of the
request JSON (`none` when the body or the key is missing).  The result pairs
the JSON response and its HTTP status with the log of collaborator calls. -/
def api_transcript (env : AppEnv) (body_url : Option String) : (JObj × Nat) × CallLog :=
  let url := pyStrip (body_url.getD "")
  if url = "" then
    (([("success", .b false), ("error", .s "请提供 url 参数")], 400), noCalls)
  else
    let resolve_result := resolve_video env.resolve url
    if jtruthy (jget resolve_result "success") = false then
      ((resolve_result, 200), noCalls)
    else
      let tv := transcribe_video env (jstr (jget resolve_result "play_url"))
      if jtruthy (jget tv.1 "success") = false then
        (([("success", .b false),
           ("error", .s ("转写失败: " ++ jstr (jget tv.1 "error")))], 200),
         { transcribeUrl := tv.2 })
      else
        let av := ai_process env (jstr (jget tv.1 "text")) (jstr (jget resolve_result "title"))
        (([("success", .b true),
           ("title", (jget av.1 "title").getD (.s "")),
           ("author", (jget resolve_result "author").getD (.s "")),
           ("duration", (jget resolve_result "duration").getD (.q 0)),
           ("text", (jget av.1 "corrected").getD (.s "")),
           ("summary", (jget av.1 "summary").getD (.s "")),
           ("play_url", (jget resolve_result "play_url").getD (.s ""))], 200),
         { transcribeUrl := tv.2, aiCalled := av.2 })

/-- Handler `api_save_feishu` from `app.py`. -/
def api_save_feishu (env : AppEnv) (body_url : Option String) : (JObj × Nat) × CallLog :=
  let url := pyStrip (body_url.getD "")
  if url = "" then
    (([("success", .b false), ("error", .s "请提供 url 参数")], 400), noCalls)
  else if env.feishuConfigured = false then
    (([("success", .b false), ("error", .s "飞书功能未配置")], 200), noCalls)
  else
    let resolve_result := resolve_video env.resolve url
    if jtruthy (jget resolve_result "success") = false then
      ((resolve_result, 200), noCalls)
    else
      let tv := transcribe_video env (jstr (jget resolve_result "play_url"))
      if jtruthy (jget tv.1 "success") = false then
        (([("success", .b false),
           ("error", .s ("转写失败: " ++ jstr (jget tv.1 "error")))], 200),
         { transcribeUrl := tv.2 })
      else
        let av := ai_process env (jstr (jget tv.1 "text")) (jstr (jget resolve_result "title"))
        let args : SaveArgs :=
          { title := jstr (jget av.1 "title"),
            author := jstr (jget resolve_result "author"),
            source_url := url,
            duration := (jget resolve_result "duration").getD (.q 0),
            text := jstr (jget av.1 "corrected"),
            summary := jstr (jget av.1 "summary") }
        let result := env.feishuSave args
        ((if result.success then
            [("success", .b true), ("doc_url", .s result.doc_url),
             ("doc_title", .s result.doc_title)]
          else
            [("success", .b false), ("error", .s result.error)], 200),
         { transcribeUrl := tv.2, aiCalled := av.2, feishuArgs := some args })

/-- Handler `api_email` from `app.py`.  `body_to` is the optional `"to"` field. -/
def api_email (env : AppEnv) (body_url body_to : Option String) : (JObj × Nat) × CallLog :=
  let url := pyStrip (body_url.getD "")
  let to_addr := pyOr (pyStrip (body_to.getD "")) env.emailTo
  if url = "" then
    (([("success", .b false), ("error", .s "请提供 url 参数")], 400), noCalls)
  else if to_addr = "" then
    (([("success", .b false), ("error", .s "请提供收件人邮箱")], 400), noCalls)
  else if env.emailConfigured = false then
    (([("success", .b false), ("error", .s "邮件功能未配置")], 200), noCalls)
  else
    let resolve_result := resolve_video env.resolve url
    if jtruthy (jget resolve_result "success") = false then
      ((resolve_result, 200), noCalls)
    else
      let tv := transcribe_video env (jstr (jget resolve_result "play_url"))
      if jtruthy (jget tv.1 "success") = false then
        (([("success", .b false),
           ("error", .s ("转写失败: " ++ jstr (jget tv.1 "error")))], 200),
         { transcribeUrl := tv.2 })
      else
        let av := ai_process env (jstr (jget tv.1 "text")) (jstr (jget resolve_result "title"))
        let args : SendArgs :=
          { to_addr := to_addr,
            title := jstr (jget av.1 "title"),
            author := jstr (jget resolve_result "author"),
            source_url := url,
            duration := (jget resolve_result "duration").getD (.q 0),
            text := jstr (jget av.1 "corrected"),
            summary := jstr (jget av.1 "summary") }
        let result := env.emailSend args
        ((if result.success then [("success", .b true)]
          else [("success", .b false), ("error", .s result.error)], 200),
         { transcribeUrl := tv.2, aiCalled := av.2, emailArgs := some args })

/-- A concrete environment whose pipeline succeeds end to end: resolution
yields a play url with an empty title, the transcriber returns text without
error, the AI feature is disabled, feishu and email are configured and
succeed. -/
def envOk : AppEnv :=
  { resolve := resolveOk,
    transcriberConfigured := true,
    transcribe := fun _ => { text := "大家好", duration := 3, error := "" },
    aiConfigured := false,
    aiProcessFn := fun _ => {},
    aiGenerateTitle := fun _ => "",
    feishuConfigured := true,
    feishuSave := fun _ => { success := true, doc_url := "http://doc", doc_title := "D" },
    emailConfigured := true,
    emailSend := fun _ => { success := true },
    emailTo := "to@example.com" }

/-- A concrete environment whose resolver leaves `video_play_url` empty, so
resolution always fails. -/
def envFail : AppEnv :=
  { resolve := fun v => v,
    transcriberConfigured := false,
    transcribe := fun _ => {},
    aiConfigured := false,
    aiProcessFn := fun _ => {},
    aiGenerateTitle := fun _ => "",
    feishuConfigured := true,
    feishuSave := fun _ => {},
    emailConfigured := true,
    emailSend := fun _ => {},
    emailTo := "to@example.com" }

/-- One call to a lazily-initialized getter of `app.py`
(`get_transcriber` / `get_ai` / `get_feishu` / `get_email`):
given the current module-level cache, return the value the call returns, the
new cache, and whether the constructor ran during this call.  `enabled`
stands for the `Config.is_*_enabled()` check, fixed for the process
lifetime; `mk` stands for the class constructor. -/
def get_lazy {α : Type} (enabled : Bool) (mk : Unit → α) (cache : Option α) :
    Option α × Option α × Bool :=
  match cache with
  | some x => (some x, some x, false)
  | none =>
    if enabled then
      let v := mk ()
      (some v, some v, true)
    else (none, none, false)

/-- Trace of `n` successive calls to the same getter, starting from the initial
(empty) module-level cache: final cache, the values returned in call order,
and how many times the constructor ran. -/
def lazy_trace {α : Type} (enabled : Bool) (mk : Unit → α) :
    Nat → Option α × List (Option α) × Nat
  | 0 => (none, [], 0)
  | n + 1 =>
    let s := lazy_trace enabled mk n
    let c := get_lazy enabled mk s.1
    (c.2.1, s.2.1 ++ [c.1], s.2.2 + (if c.2.2 then 1 else 0))

/-- The Unicode-aware Python regex class `\w` restricted to ASCII:
`[A-Za-z0-9_]`.  The full `\w` is passed around as a parameter `pyW`; where a
claim needs its concrete behavior on ASCII, a hypothesis pins `pyW` to this
function below code point 128 (no claim depends on which non-ASCII code
points outside the CJK block count as word characters). -/
def wordAscii (c : Char) : Bool :=
  (48 ≤ c.toNat && c.toNat ≤ 57) || (65 ≤ c.toNat && c.toNat ≤ 90) ||
  (97 ≤ c.toNat && c.toNat ≤ 122) || c == '_'

/-- The character class kept by the `re.sub` call of `api_download`
(negated class of word characters, the CJK block, and hyphen): a regex word
character, a CJK character, or a hyphen. -/
def keepChar (pyW : Char → Bool) (c : Char) : Bool :=
  pyW c || (0x4e00 ≤ c.toNat && c.toNat ≤ 0x9fff) || c == '-'

/-- Variable `safe_title` of `api_download`: replace every character outside the kept
class with an underscore, then truncate to 60 characters. -/
def safe_title (pyW : Char → Bool) (title : String) : String :=
  String.mk ((title.data.map (fun c => if keepChar pyW c then c else '_')).take 60)

/-- UTF-8 encoding of one scalar value, as a list of byte values. -/
def utf8Bytes (c : Char) : List Nat :=
  let n := c.toNat
  if n < 0x80 then [n]
  else if n < 0x800 then [0xC0 + n / 64, 0x80 + n % 64]
  else if n < 0x10000 then [0xE0 + n / 4096, 0x80 + (n / 64) % 64, 0x80 + n % 64]
  else [0xF0 + n / 262144, 0x80 + (n / 4096) % 64, 0x80 + (n / 64) % 64, 0x80 + n % 64]

/-- The bytes `urllib.parse.quote` leaves unescaped with its default
safe set (which includes the slash): ASCII alphanumerics, underscore, dot,
hyphen, tilde and slash. -/
def isSafeByte (b : Nat) : Bool :=
  (65 ≤ b && b ≤ 90) || (97 ≤ b && b ≤ 122) || (48 ≤ b && b ≤ 57) ||
  b == 95 || b == 46 || b == 45 || b == 126 || b == 47

/-- Upper-case hex digit, as produced by `urllib.parse.quote`. -/
def hexUpper (n : Nat) : Char :=
  if n < 10 then Char.ofNat (48 + n) else Char.ofNat (55 + n)

/-- One byte of `urllib.parse.quote` output: kept verbatim when safe,
percent-escaped otherwise. -/
def quoteByte (b : Nat) : List Char :=
  if isSafeByte b then [Char.ofNat b] else ['%', hexUpper (b / 16), hexUpper (b % 16)]

/-- Model of `urllib.parse.quote` (with its default safe set containing the
slash) over the UTF-8 encoding. -/
def pyQuote (s : String) : String :=
  String.mk (s.data.flatMap fun c => (utf8Bytes c).flatMap quoteByte)

/-- A single-quote character, written via its code point. -/
def squo : String := String.mk [Char.ofNat 39]

/-- The `Content-Disposition` header value built by `api_download` around the
encoded title. -/
def contentDisposition (enc : String) : String :=
  "attachment; filename=\"" ++ enc ++ ".mp4\"; filename*=UTF-8" ++ squo ++ squo ++ enc ++ ".mp4"

/-- Outcome of the single upstream `http_requests.get` call of
`api_download`: either a response (status plus the two headers the handler
reads) or a raised `requests.RequestException` carrying `str(e)`. -/
inductive UpstreamOutcome where
  | response (status : Nat) (contentType : Option String) (contentLength : Option String)
  | exn (msg : String)
deriving DecidableEq, Repr

/-- What `api_download` returns: a JSON error body with an HTTP status, or a
streamed response described by its headers. -/
inductive DownloadResp where
  | json (body : JObj) (status : Nat)
  | stream (headers : List (String × String))
deriving DecidableEq, Repr

/-- Handler `api_download` from `app.py`.  `url_param` and `title_param` are the
query parameters; `upstream` is the outcome of the proxied request. -/
def api_download (pyW : Char → Bool) (url_param title_param : Option String)
    (upstream : UpstreamOutcome) : DownloadResp :=
  let video_url := pyStrip (url_param.getD "")
  let title := pyOr (pyStrip (title_param.getD "video")) "video"
  if video_url = "" then
    .json [("success", .b false), ("error", .s "缺少 url 参数")] 400
  else
    let encoded_title := pyQuote (safe_title pyW title)
    match upstream with
    | .exn msg => .json [("success", .b false), ("error", .s msg)] 502
    | .response status ct cl =>
      if status ≠ 200 then
        .json [("success", .b false), ("error", .s ("上游返回 " ++ toString status))] 502
      else
        .stream ([("Content-Type", ct.getD "video/mp4"),
                  ("Content-Disposition", contentDisposition encoded_title)] ++
                 (if cl.getD "" ≠ "" then [("Content-Length", cl.getD "")] else []))

/-- Characters that can appear in the percent-encoded filename: ASCII
alphanumerics, underscore, hyphen and the escape character `%`. -/
def goodChar (c : Char) : Bool :=
  (48 ≤ c.toNat && c.toNat ≤ 57) || (65 ≤ c.toNat && c.toNat ≤ 90) ||
  (97 ≤ c.toNat && c.toNat ≤ 122) || c == '_' || c == '-' || c == '%'

/-- The title actually sanitized by `api_download`: query parameter with
default `"video"`, stripped, blank falling back to `"video"`. -/
def effectiveTitle (title_param : Option String) : String :=
  pyOr (pyStrip (title_param.getD "video")) "video"

/-- Branch lemma: resolution failure produces the fixed error dict. -/
theorem resolve_video_of_empty (resolve : VideoRecord → VideoRecord) (url : String)
    (h : (resolve (initialRecord url)).video_play_url = "") :
    resolve_video resolve url
      = [("success", .b false), ("error", .s "解析失败，请检查链接是否有效")] := by
  simp only [resolve_video]
  rw [if_pos h]

/-- Branch lemma: a non-empty play url produces the success dict built from
the resolved record. -/
theorem resolve_video_of_nonempty (resolve : VideoRecord → VideoRecord) (url : String)
    (h : ¬ (resolve (initialRecord url)).video_play_url = "") :
    resolve_video resolve url
      = [("success", .b true),
         ("title", .s (pyOr (resolve (initialRecord url)).title "")),
         ("author", .s (pyOr (resolve (initialRecord url)).author "")),
         ("aweme_id", .s (resolve (initialRecord url)).aweme_id),
         ("play_url", .s (resolve (initialRecord url)).video_play_url),
         ("duration", .q (pyRound1 (resolve (initialRecord url)).duration_seconds))] := by
  simp only [resolve_video]
  rw [if_neg h]

/-- C1: `_resolve_video` reports failure (success `false` with a human-readable
error string) exactly when the resolved record has an empty `video_play_url`;
otherwise it reports success with title, author, aweme_id, play_url and
duration populated from the record. -/
theorem resolve_video_success_iff (resolve : VideoRecord → VideoRecord) (url : String) :
    ((jtruthy (jget (resolve_video resolve url) "success") = false ∧
      jstr (jget (resolve_video resolve url) "error") ≠ "") ↔
        (resolve (initialRecord url)).video_play_url = "")
    ∧ ((resolve (initialRecord url)).video_play_url ≠ "" →
        jtruthy (jget (resolve_video resolve url) "success") = true ∧
        jget (resolve_video resolve url) "title"
          = some (.s (pyOr (resolve (initialRecord url)).title "")) ∧
        jget (resolve_video resolve url) "author"
          = some (.s (pyOr (resolve (initialRecord url)).author "")) ∧
        jget (resolve_video resolve url) "aweme_id"
          = some (.s (resolve (initialRecord url)).aweme_id) ∧
        jget (resolve_video resolve url) "play_url"
          = some (.s (resolve (initialRecord url)).video_play_url) ∧
        jget (resolve_video resolve url) "duration"
          = some (.q (pyRound1 (resolve (initialRecord url)).duration_seconds))) := by
  by_cases h : (resolve (initialRecord url)).video_play_url = ""
  · rw [resolve_video_of_empty resolve url h]
    exact ⟨⟨fun _ => h, fun _ => ⟨rfl, by decide⟩⟩, fun hne => absurd h hne⟩
  · rw [resolve_video_of_nonempty resolve url h]
    refine ⟨⟨fun hc => ?_, fun he => absurd he h⟩,
            fun _ => ⟨rfl, rfl, rfl, rfl, rfl, rfl⟩⟩
    exact nomatch hc.1

theorem resolve_video_success_iff_witness :
    jtruthy (jget (resolve_video resolveOk "u") "success") = true ∧
    jget (resolve_video resolveOk "u") "play_url" = some (.s "http://cdn/x.mp4") := by
  have h := (resolve_video_success_iff resolveOk "u").2 (by decide)
  exact ⟨h.1, h.2.2.2.2.1⟩

/-- C7: on every successful resolution the surfaced `duration` is
`round(duration_seconds, 1)`, the source duration rounded to one decimal
place. -/
theorem resolve_video_duration_rounded (resolve : VideoRecord → VideoRecord) (url : String)
    (h : (resolve (initialRecord url)).video_play_url ≠ "") :
    jget (resolve_video resolve url) "duration"
      = some (.q (pyRound1 (resolve (initialRecord url)).duration_seconds)) := by
  rw [resolve_video_of_nonempty resolve url h]
  rfl

/-- C7 witness: the 12.3-seconds fixture is surfaced as the rational 12.3,
not truncated to an integer. -/
theorem resolve_video_duration_rounded_witness :
    jget (resolve_video resolveOk "u") "duration" = some (.q (123/10)) := by
  have h := resolve_video_duration_rounded resolveOk "u" (by decide)
  have hr : pyRound1 ((resolveOk (initialRecord "u")).duration_seconds) = 123/10 := by
    show pyRound1 (123/10) = 123/10
    unfold pyRound1 roundHalfEven
    norm_num
  rw [h, hr]

/-- C4: `_transcribe_video` never hands the raw media url to the
transcription collaborator: the transcriber, when configured, is called with
exactly the same-origin proxy rewrite of the play url (which differs from the
raw play url); when unconfigured, a failure dict is returned and no call is
made. -/
theorem transcribe_video_uses_proxy (env : AppEnv) (play_url : String) :
    (env.transcriberConfigured = false →
      transcribe_video env play_url
        = ([("success", .b false), ("error", .s "转写功能未配置")], none))
    ∧ (env.transcriberConfigured = true →
      (transcribe_video env play_url).2 = some (proxyUrl play_url))
    ∧ (∀ u, (transcribe_video env play_url).2 = some u →
        u = proxyUrl play_url ∧ u ≠ play_url) := by
  have hne : proxyUrl play_url ≠ play_url := by
    intro hcontra
    have hlen := congrArg String.length hcontra
    simp only [proxyUrl, String.length_append] at hlen
    have h0 : ("http://127.0.0.1:3102/api/download?url=" : String).length = 39 := by decide
    rw [h0] at hlen
    omega
  by_cases h : env.transcriberConfigured = false
  · refine ⟨fun _ => ?_, fun ht => absurd ht (by simp [h]), fun u hu => ?_⟩
    · simp [transcribe_video, h]
    · simp [transcribe_video, h] at hu
  · refine ⟨fun hf => absurd hf h, fun _ => ?_, fun u hu => ?_⟩
    · by_cases he : (env.transcribe (proxyUrl play_url)).error = "" <;>
        simp [transcribe_video, h, he]
    · by_cases he : (env.transcribe (proxyUrl play_url)).error = ""
      · simp [transcribe_video, h, he] at hu
        exact ⟨hu.symm, hu ▸ hne⟩
      · simp [transcribe_video, h, he] at hu
        exact ⟨hu.symm, hu ▸ hne⟩

/-- C10: `_ai_process` always returns a non-empty title (with the sentinel
`未知视频` as fallback), and is text-preserving on AI failure: when the AI
client is unavailable or its `process` call reports failure, the returned
`corrected` is the input text and `summary` is empty. -/
theorem ai_process_title_nonempty_and_preserving (env : AppEnv) (text title : String) :
    jstr (jget (ai_process env text title).1 "title") ≠ ""
    ∧ ((env.aiConfigured = false ∨ (env.aiProcessFn text).success = false) →
        jget (ai_process env text title).1 "corrected" = some (.s text)
        ∧ jget (ai_process env text title).1 "summary" = some (.s "")) := by
  have hOr : ∀ a b : String, b ≠ "" → pyOr a b ≠ "" := by
    intro a b hb
    unfold pyOr
    split <;> simp_all
  by_cases hc : env.aiConfigured = false
  · refine ⟨?_, fun _ => by constructor <;> simp [ai_process, hc, jget]⟩
    have : jstr (jget (ai_process env text title).1 "title") = pyOr title "未知视频" := by
      simp [ai_process, hc, jget, jstr]
    rw [this]
    exact hOr _ _ (by decide)
  · by_cases hs : (env.aiProcessFn text).success = false
    · refine ⟨?_, fun _ => ?_⟩
      · have : jstr (jget (ai_process env text title).1 "title")
            = pyOr (if title = "" ∨ title = "未知" then
                      (if env.aiGenerateTitle text = "" then title
                       else env.aiGenerateTitle text)
                    else title) "未知视频" := by
          simp [ai_process, hc, hs, jget, jstr]
        rw [this]
        exact hOr _ _ (by decide)
      · constructor <;> simp [ai_process, hc, hs, jget]
    · refine ⟨?_, fun habs => ?_⟩
      · have : jstr (jget (ai_process env text title).1 "title")
            = pyOr (if title = "" ∨ title = "未知" then
                      (if env.aiGenerateTitle (env.aiProcessFn text).corrected_text = "" then title
                       else env.aiGenerateTitle (env.aiProcessFn text).corrected_text)
                    else title) "未知视频" := by
          simp [ai_process, hc, hs, jget, jstr]
        rw [this]
        exact hOr _ _ (by decide)
      · rcases habs with habs | habs
        · exact absurd habs hc
        · exact absurd habs hs

/-- C4 witness: with a configured transcriber the vendor call receives the
proxy rewrite of the play url, never the raw url; unconfigured, no call. -/
theorem transcribe_video_uses_proxy_witness :
    (transcribe_video envOk "http://cdn/x.mp4").2
      = some "http://127.0.0.1:3102/api/download?url=http://cdn/x.mp4"
    ∧ "http://127.0.0.1:3102/api/download?url=http://cdn/x.mp4" ≠ "http://cdn/x.mp4"
    ∧ (transcribe_video envFail "http://cdn/x.mp4").2 = none := by
  have h := (transcribe_video_uses_proxy envOk "http://cdn/x.mp4").2.1 rfl
  have h2 := ((transcribe_video_uses_proxy envOk "http://cdn/x.mp4").2.2 _ h).2
  have h3 := (transcribe_video_uses_proxy envFail "http://cdn/x.mp4").1 rfl
  exact ⟨h, h2, congrArg Prod.snd h3⟩

/-- C10 witness: with the AI disabled, the title falls back to the sentinel
and the text passes through unchanged. -/
theorem ai_process_title_nonempty_and_preserving_witness :
    jstr (jget (ai_process envOk "正文" "").1 "title") ≠ ""
    ∧ jget (ai_process envOk "正文" "").1 "corrected" = some (.s "正文")
    ∧ jget (ai_process envOk "正文" "").1 "summary" = some (.s "") := by
  have h := ai_process_title_nonempty_and_preserving envOk "正文" ""
  have h2 := h.2 (Or.inl rfl)
  exact ⟨h.1, h2.1, h2.2⟩

/-- C3: whenever `_resolve_video` reports failure (and the handler reached
the resolution step at all), `api_transcript`, `api_save_feishu` and
`api_email` each return the failure dict unchanged with status 200 and invoke
no later stage: no transcriber, AI, document-store or email call happens. -/
theorem resolve_failure_short_circuits (env : AppEnv) (body_url body_to : Option String)
    (hu : pyStrip (body_url.getD "") ≠ "")
    (hf : jtruthy (jget (resolve_video env.resolve (pyStrip (body_url.getD ""))) "success")
            = false) :
    api_transcript env body_url
      = ((resolve_video env.resolve (pyStrip (body_url.getD "")), 200), noCalls)
    ∧ (env.feishuConfigured = true →
        api_save_feishu env body_url
          = ((resolve_video env.resolve (pyStrip (body_url.getD "")), 200), noCalls))
    ∧ (env.emailConfigured = true →
        pyOr (pyStrip (body_to.getD "")) env.emailTo ≠ "" →
        api_email env body_url body_to
          = ((resolve_video env.resolve (pyStrip (body_url.getD "")), 200), noCalls)) := by
  refine ⟨?_, fun hfe => ?_, fun hem hto => ?_⟩
  · simp [api_transcript, hu, hf]
  · simp [api_save_feishu, hu, hfe, hf]
  · simp [api_email, hu, hem, hto, hf]

theorem resolve_failure_short_circuits_witness :
    api_transcript envFail (some "http://x")
      = ((resolve_video envFail.resolve (pyStrip "http://x"), 200), noCalls)
    ∧ api_save_feishu envFail (some "http://x")
      = ((resolve_video envFail.resolve (pyStrip "http://x"), 200), noCalls)
    ∧ api_email envFail (some "http://x") none
      = ((resolve_video envFail.resolve (pyStrip "http://x"), 200), noCalls) := by
  have h := resolve_failure_short_circuits envFail (some "http://x") none
    (by decide) (by decide)
  exact ⟨h.1, h.2.1 rfl, h.2.2 rfl (by decide)⟩

/-- If `jstr` extracts a non-empty string, the option held that string. -/
theorem jstr_nonempty (o : Option JVal) (h : jstr o ≠ "") : o = some (.s (jstr o)) := by
  match o with
  | none => exact absurd rfl h
  | some (.s v) => rfl
  | some (.q v) => exact absurd rfl h
  | some (.b v) => exact absurd rfl h

/-- C6: the `source_url` handed to the document-store and email collaborators
is the stripped `"url"` field of the request body, verbatim, untouched by any
extraction or resolution the pipeline performs on it. -/
theorem source_url_verbatim (env : AppEnv) (body_url body_to : Option String) :
    (∀ a, (api_save_feishu env body_url).2.feishuArgs = some a →
        a.source_url = pyStrip (body_url.getD ""))
    ∧ (∀ a, (api_email env body_url body_to).2.emailArgs = some a →
        a.source_url = pyStrip (body_url.getD "")) := by
  constructor
  · intro a ha
    simp only [api_save_feishu] at ha
    split at ha
    · simp [noCalls] at ha
    · split at ha
      · simp [noCalls] at ha
      · split at ha
        · simp [noCalls] at ha
        · split at ha
          · simp at ha
          · rw [← Option.some.inj ha]
  · intro a ha
    simp only [api_email] at ha
    split at ha
    · simp [noCalls] at ha
    · split at ha
      · simp [noCalls] at ha
      · split at ha
        · simp [noCalls] at ha
        · split at ha
          · simp [noCalls] at ha
          · split at ha
            · simp at ha
            · rw [← Option.some.inj ha]

theorem source_url_verbatim_witness :
    ((api_save_feishu envOk (some " http://in ")).2.feishuArgs).map SaveArgs.source_url
      = some "http://in"
    ∧ ((api_email envOk (some " http://in ") none).2.emailArgs).map SendArgs.source_url
      = some "http://in" := by
  have hs : (api_save_feishu envOk (some " http://in ")).2.feishuArgs
      = some { title := "未知视频", author := "作者", source_url := "http://in",
               duration := .q (pyRound1 (123/10)), text := "大家好", summary := "" } := rfl
  have he : (api_email envOk (some " http://in ") none).2.emailArgs
      = some { to_addr := "to@example.com", title := "未知视频", author := "作者",
               source_url := "http://in", duration := .q (pyRound1 (123/10)),
               text := "大家好", summary := "" } := rfl
  have h1 := (source_url_verbatim envOk (some " http://in ") none).1 _ hs
  have h2 := (source_url_verbatim envOk (some " http://in ") none).2 _ he
  exact ⟨(congrArg (Option.map SaveArgs.source_url) hs).trans (congrArg some h1),
         (congrArg (Option.map SendArgs.source_url) he).trans (congrArg some h2)⟩

/-- C5 counterexample: a successful `api_transcript` request whose response
`title` differs from the `title` of the resolution result — the route glue
does not pass the title along unchanged (it surfaces the `_ai_process`
title, here the sentinel `未知视频` replacing the empty resolution title). -/
theorem api_transcript_title_not_passthrough :
    jtruthy (jget (api_transcript envOk (some "http://in")).1.1 "success") = true
    ∧ jget (api_transcript envOk (some "http://in")).1.1 "title" = some (.s "未知视频")
    ∧ jget (resolve_video envOk.resolve (pyStrip "http://in")) "title" = some (.s "")
    ∧ JVal.s "未知视频" ≠ JVal.s "" :=
  ⟨rfl, rfl, rfl, by decide⟩

/-- Branch lemma: `api_transcript` with a blank url. -/
theorem api_transcript_of_nourl (env : AppEnv) (body_url : Option String)
    (h1 : pyStrip (body_url.getD "") = "") :
    api_transcript env body_url
      = (([("success", .b false), ("error", .s "请提供 url 参数")], 400), noCalls) := by
  simp [api_transcript, h1]

/-- Branch lemma: `api_transcript` when resolution fails. -/
theorem api_transcript_of_resolve_fail (env : AppEnv) (body_url : Option String)
    (h1 : ¬ pyStrip (body_url.getD "") = "")
    (h2 : jtruthy (jget (resolve_video env.resolve (pyStrip (body_url.getD ""))) "success")
            = false) :
    api_transcript env body_url
      = ((resolve_video env.resolve (pyStrip (body_url.getD "")), 200), noCalls) := by
  simp [api_transcript, h1, h2]

/-- Branch lemma: `api_transcript` when transcription fails. -/
theorem api_transcript_of_transcribe_fail (env : AppEnv) (body_url : Option String)
    (h1 : ¬ pyStrip (body_url.getD "") = "")
    (h2 : ¬ jtruthy (jget (resolve_video env.resolve (pyStrip (body_url.getD ""))) "success")
            = false)
    (h3 : jtruthy (jget (transcribe_video env
            (jstr (jget (resolve_video env.resolve (pyStrip (body_url.getD ""))) "play_url"))).1
            "success") = false) :
    api_transcript env body_url
      = (([("success", .b false),
           ("error", .s ("转写失败: " ++ jstr (jget (transcribe_video env
             (jstr (jget (resolve_video env.resolve (pyStrip (body_url.getD ""))) "play_url"))).1
             "error")))], 200),
         { transcribeUrl := (transcribe_video env
             (jstr (jget (resolve_video env.resolve (pyStrip (body_url.getD ""))) "play_url"))).2 }) := by
  simp [api_transcript, h1, h2, h3]

/-- Branch lemma: the response of `api_transcript` when every stage
succeeds. -/
theorem api_transcript_of_ok (env : AppEnv) (body_url : Option String)
    (h1 : ¬ pyStrip (body_url.getD "") = "")
    (h2 : ¬ jtruthy (jget (resolve_video env.resolve (pyStrip (body_url.getD ""))) "success")
            = false)
    (h3 : ¬ jtruthy (jget (transcribe_video env
            (jstr (jget (resolve_video env.resolve (pyStrip (body_url.getD ""))) "play_url"))).1
            "success") = false) :
    (api_transcript env body_url).1.1
      = [("success", .b true),
         ("title", (jget (ai_process env
             (jstr (jget (transcribe_video env
               (jstr (jget (resolve_video env.resolve (pyStrip (body_url.getD ""))) "play_url"))).1
               "text"))
             (jstr (jget (resolve_video env.resolve (pyStrip (body_url.getD ""))) "title"))).1
             "title").getD (.s "")),
         ("author", (jget (resolve_video env.resolve (pyStrip (body_url.getD ""))) "author").getD
             (.s "")),
         ("duration", (jget (resolve_video env.resolve (pyStrip (body_url.getD ""))) "duration").getD
             (.q 0)),
         ("text", (jget (ai_process env
             (jstr (jget (transcribe_video env
               (jstr (jget (resolve_video env.resolve (pyStrip (body_url.getD ""))) "play_url"))).1
               "text"))
             (jstr (jget (resolve_video env.resolve (pyStrip (body_url.getD ""))) "title"))).1
             "corrected").getD (.s "")),
         ("summary", (jget (ai_process env
             (jstr (jget (transcribe_video env
               (jstr (jget (resolve_video env.resolve (pyStrip (body_url.getD ""))) "play_url"))).1
               "text"))
             (jstr (jget (resolve_video env.resolve (pyStrip (body_url.getD ""))) "title"))).1
             "summary").getD (.s "")),
         ("play_url", (jget (resolve_video env.resolve (pyStrip (body_url.getD ""))) "play_url").getD
             (.s ""))] := by
  simp [api_transcript, h1, h2, h3]

/-- Helper: `_ai_process` leaves a non-empty title other than `未知` untouched. -/
theorem ai_process_title_id (env : AppEnv) (text title : String)
    (h1 : title ≠ "") (h2 : title ≠ "未知") :
    jget (ai_process env text title).1 "title" = some (.s title) := by
  by_cases hc : env.aiConfigured = false
  · simp [ai_process, hc, jget, pyOr, h1]
  · simp [ai_process, hc, jget, h1, h2, pyOr]

/-- C5 (amended): for every successful `api_transcript` request, the
response fields `author`, `duration` and `play_url` equal the corresponding fields
of the resolution result; the `title` does so only when the resolution title
is non-empty and different from `未知` (otherwise `_ai_process` may replace
it). -/
theorem api_transcript_passthrough (env : AppEnv) (body_url : Option String)
    (hs : jtruthy (jget (api_transcript env body_url).1.1 "success") = true) :
    jget (api_transcript env body_url).1.1 "author"
      = jget (resolve_video env.resolve (pyStrip (body_url.getD ""))) "author"
    ∧ jget (api_transcript env body_url).1.1 "duration"
      = jget (resolve_video env.resolve (pyStrip (body_url.getD ""))) "duration"
    ∧ jget (api_transcript env body_url).1.1 "play_url"
      = jget (resolve_video env.resolve (pyStrip (body_url.getD ""))) "play_url"
    ∧ (jstr (jget (resolve_video env.resolve (pyStrip (body_url.getD ""))) "title") ≠ "" →
       jstr (jget (resolve_video env.resolve (pyStrip (body_url.getD ""))) "title") ≠ "未知" →
        jget (api_transcript env body_url).1.1 "title"
          = jget (resolve_video env.resolve (pyStrip (body_url.getD ""))) "title") := by
  by_cases h1 : pyStrip (body_url.getD "") = ""
  · rw [api_transcript_of_nourl env body_url h1] at hs
    exact absurd hs (by decide)
  · by_cases h2 : jtruthy (jget (resolve_video env.resolve (pyStrip (body_url.getD "")))
        "success") = false
    · rw [api_transcript_of_resolve_fail env body_url h1 h2] at hs
      rw [show ((resolve_video env.resolve (pyStrip (body_url.getD "")), 200),
            noCalls).1.1 = resolve_video env.resolve (pyStrip (body_url.getD "")) from rfl,
          h2] at hs
      exact Bool.noConfusion hs
    · by_cases h3 : jtruthy (jget (transcribe_video env
          (jstr (jget (resolve_video env.resolve (pyStrip (body_url.getD ""))) "play_url"))).1
          "success") = false
      · rw [api_transcript_of_transcribe_fail env body_url h1 h2 h3] at hs
        exact nomatch hs
      · by_cases hplay : (env.resolve (initialRecord (pyStrip (body_url.getD "")))).video_play_url
            = ""
        · exact absurd (by rw [resolve_video_of_empty env.resolve _ hplay]; rfl) h2
        · rw [api_transcript_of_ok env body_url h1 h2 h3,
              resolve_video_of_nonempty env.resolve _ hplay]
          refine ⟨rfl, rfl, rfl, fun ht hu => ?_⟩
          have hid := ai_process_title_id env
            (jstr (jget (transcribe_video env (jstr (jget
              [("success", JVal.b true),
               ("title", JVal.s (pyOr (env.resolve (initialRecord (pyStrip (body_url.getD "")))).title "")),
               ("author", JVal.s (pyOr (env.resolve (initialRecord (pyStrip (body_url.getD "")))).author "")),
               ("aweme_id", JVal.s (env.resolve (initialRecord (pyStrip (body_url.getD "")))).aweme_id),
               ("play_url", JVal.s (env.resolve (initialRecord (pyStrip (body_url.getD "")))).video_play_url),
               ("duration", JVal.q (pyRound1 (env.resolve (initialRecord (pyStrip (body_url.getD "")))).duration_seconds))]
              "play_url"))).1 "text"))
            (jstr (jget
              [("success", JVal.b true),
               ("title", JVal.s (pyOr (env.resolve (initialRecord (pyStrip (body_url.getD "")))).title "")),
               ("author", JVal.s (pyOr (env.resolve (initialRecord (pyStrip (body_url.getD "")))).author "")),
               ("aweme_id", JVal.s (env.resolve (initialRecord (pyStrip (body_url.getD "")))).aweme_id),
               ("play_url", JVal.s (env.resolve (initialRecord (pyStrip (body_url.getD "")))).video_play_url),
               ("duration", JVal.q (pyRound1 (env.resolve (initialRecord (pyStrip (body_url.getD "")))).duration_seconds))]
              "title")) ht hu
          simp only [hid]
          rfl

theorem api_transcript_passthrough_witness :
    jget (api_transcript envOk (some "http://in")).1.1 "author"
      = jget (resolve_video envOk.resolve (pyStrip "http://in")) "author"
    ∧ jget (api_transcript envOk (some "http://in")).1.1 "play_url"
      = jget (resolve_video envOk.resolve (pyStrip "http://in")) "play_url" := by
  have h := api_transcript_passthrough envOk (some "http://in") rfl
  exact ⟨h.1, h.2.2.1⟩

/-- Full characterization of a call sequence. -/
theorem lazy_trace_eq {α : Type} (enabled : Bool) (mk : Unit → α) (n : Nat) :
    lazy_trace enabled mk n
      = if enabled then
          ((if n = 0 then none else some (mk ())),
           List.replicate n (some (mk ())),
           (if n = 0 then 0 else 1))
        else (none, List.replicate n none, 0) := by
  induction n with
  | zero => cases enabled <;> simp [lazy_trace]
  | succ m ih =>
    cases enabled with
    | false => simp [lazy_trace, ih, get_lazy, List.replicate_succ']
    | true =>
      by_cases hm : m = 0
      · subst hm
        simp [lazy_trace, ih, get_lazy]
      · simp [lazy_trace, ih, hm, get_lazy, List.replicate_succ']

/-- C8: across any sequence of calls to a lazy getter, the constructor runs
at most once and only when the feature is enabled; while disabled every call
returns `None` and nothing is constructed; once enabled, every call returns
the identical constructed instance. -/
theorem lazy_getter_at_most_once {α : Type} (enabled : Bool) (mk : Unit → α) (n : Nat) :
    (lazy_trace enabled mk n).2.2 ≤ 1
    ∧ ((lazy_trace enabled mk n).2.2 = 1 → enabled = true ∧ 1 ≤ n)
    ∧ (enabled = false →
        (lazy_trace enabled mk n).2.1 = List.replicate n none
        ∧ (lazy_trace enabled mk n).2.2 = 0)
    ∧ (enabled = true →
        (lazy_trace enabled mk n).2.1 = List.replicate n (some (mk ()))
        ∧ (1 ≤ n → (lazy_trace enabled mk n).2.2 = 1)) := by
  rw [lazy_trace_eq]
  by_cases he : enabled
  · by_cases hn : n = 0
    · simp [he, hn]
    · simp [he, hn]
      omega
  · simp [he]

theorem lazy_getter_at_most_once_witness :
    (lazy_trace true (fun _ => (7 : Nat)) 3).2.1 = [some 7, some 7, some 7]
    ∧ (lazy_trace true (fun _ => (7 : Nat)) 3).2.2 = 1
    ∧ (lazy_trace false (fun _ => (7 : Nat)) 3).2.1 = [none, none, none]
    ∧ (lazy_trace false (fun _ => (7 : Nat)) 3).2.2 = 0 := by
  have ht := (lazy_getter_at_most_once true (fun _ => (7 : Nat)) 3).2.2.2 rfl
  have hf := (lazy_getter_at_most_once false (fun _ => (7 : Nat)) 3).2.2.1 rfl
  exact ⟨ht.1, ht.2 (by omega), hf.1, hf.2⟩

theorem char_toNat_lt (c : Char) : c.toNat < 1114112 := by
  rcases c.valid with h | ⟨h1, h2⟩
  · exact lt_trans h (by norm_num)
  · exact h2

theorem utf8Bytes_lt (c : Char) : ∀ b ∈ utf8Bytes c, b < 256 := by
  intro b hb
  have hv := char_toNat_lt c
  simp only [utf8Bytes] at hb
  split at hb
  · simp at hb
    omega
  · split at hb
    · simp at hb
      rcases hb with hb | hb <;> omega
    · split at hb
      · simp at hb
        rcases hb with hb | hb | hb <;> omega
      · simp at hb
        rcases hb with hb | hb | hb | hb <;> omega

theorem utf8Bytes_hi (c : Char) (h : 128 ≤ c.toNat) : ∀ b ∈ utf8Bytes c, 128 ≤ b := by
  intro b hb
  simp only [utf8Bytes] at hb
  split at hb
  · omega
  · split at hb
    · simp at hb
      rcases hb with hb | hb <;> omega
    · split at hb
      · simp at hb
        rcases hb with hb | hb | hb <;> omega
      · simp at hb
        rcases hb with hb | hb | hb | hb <;> omega

theorem utf8Bytes_ascii (c : Char) (h : c.toNat < 128) : utf8Bytes c = [c.toNat] := by
  simp only [utf8Bytes]
  rw [if_pos (show c.toNat < 128 by omega)]

set_option maxRecDepth 4096 in
theorem quoteByte_good : ∀ b : Nat, b < 256 → b ≠ 46 → b ≠ 47 → b ≠ 126 →
    ∀ ch ∈ quoteByte b, goodChar ch = true := by decide

theorem safe_title_chars (pyW : Char → Bool) (t : String) :
    ∀ c ∈ (safe_title pyW t).data, keepChar pyW c = true ∨ c = '_' := by
  intro c hc
  have hc2 : c ∈ t.data.map (fun c => if keepChar pyW c then c else '_') :=
    List.mem_of_mem_take hc
  obtain ⟨a, -, ha⟩ := List.mem_map.mp hc2
  by_cases hk : keepChar pyW a = true
  · left
    rw [← ha, if_pos hk]
    exact hk
  · right
    rw [← ha, if_neg hk]

/-- The code-point classification of every character the sanitizer keeps
(under the ASCII pinning of `pyW`). -/
theorem kept_char_ranges (pyW : Char → Bool)
    (hW : ∀ c : Char, c.toNat < 128 → pyW c = wordAscii c)
    (c : Char) (hc : keepChar pyW c = true ∨ c = '_') (hlt : c.toNat < 128) :
    (48 ≤ c.toNat ∧ c.toNat ≤ 57) ∨ (65 ≤ c.toNat ∧ c.toNat ≤ 90) ∨
    (97 ≤ c.toNat ∧ c.toNat ≤ 122) ∨ c.toNat = 95 ∨ c.toNat = 45 := by
  rcases hc with hc | rfl
  · rw [keepChar, hW c hlt] at hc
    simp [wordAscii] at hc
    rcases hc with ((((h | h) | h) | rfl) | h) | rfl
    · omega
    · omega
    · omega
    · right; right; right; left; rfl
    · omega
    · right; right; right; right; rfl
  · right; right; right; left; rfl

/-- Every character of the percent-encoded sanitized title is an ASCII
alphanumeric, `_`, `-` or `%`. -/
theorem pyQuote_safe_title_good (pyW : Char → Bool)
    (hW : ∀ c : Char, c.toNat < 128 → pyW c = wordAscii c) (t : String) :
    ∀ ch ∈ (pyQuote (safe_title pyW t)).data, goodChar ch = true := by
  intro ch hch
  have hch2 : ch ∈ (safe_title pyW t).data.flatMap
      (fun c => (utf8Bytes c).flatMap quoteByte) := hch
  obtain ⟨c, hc, hch3⟩ := List.mem_flatMap.mp hch2
  obtain ⟨b, hb, hch4⟩ := List.mem_flatMap.mp hch3
  have hclass := safe_title_chars pyW t c hc
  by_cases hlt : c.toNat < 128
  · have hr := kept_char_ranges pyW hW c hclass hlt
    rw [utf8Bytes_ascii c hlt] at hb
    simp at hb
    subst hb
    exact quoteByte_good c.toNat (by omega) (by omega) (by omega) (by omega) ch hch4
  · have h1 := utf8Bytes_lt c b hb
    have h2 := utf8Bytes_hi c (by omega) b hb
    exact quoteByte_good b h1 (by omega) (by omega) (by omega) ch hch4

/-- Excluded characters: nothing dangerous for a header survives. -/
theorem goodChar_excludes (ch : Char) (h : goodChar ch = true) :
    ch ≠ '"' ∧ ch ≠ '/' ∧ ch ≠ '\\' ∧ 32 ≤ ch.toNat := by
  have hn : (48 ≤ ch.toNat ∧ ch.toNat ≤ 57) ∨ (65 ≤ ch.toNat ∧ ch.toNat ≤ 90) ∨
      (97 ≤ ch.toNat ∧ ch.toNat ≤ 122) ∨ ch.toNat = 95 ∨ ch.toNat = 45 ∨ ch.toNat = 37 := by
    simp [goodChar] at h
    rcases h with ((((h | h) | h) | rfl) | rfl) | rfl
    · omega
    · omega
    · omega
    · right; right; right; left; rfl
    · right; right; right; right; left; rfl
    · right; right; right; right; right; rfl
  refine ⟨fun he => ?_, fun he => ?_, fun he => ?_, by omega⟩
  · rw [he] at hn
    have : ('"' : Char).toNat = 34 := rfl
    omega
  · rw [he] at hn
    have : ('/' : Char).toNat = 47 := rfl
    omega
  · rw [he] at hn
    have : ('\\' : Char).toNat = 92 := rfl
    omega

/-- C9: the filename in the `Content-Disposition` header is the caller
title with every character outside `\w`, the CJK block and `-` replaced by
`_`, truncated to 60 characters and percent-encoded; consequently no quote,
control character or path separator from the title reaches the header, and a
missing or blank title yields the filename `video`. -/
theorem api_download_filename_sanitized (pyW : Char → Bool)
    (hW : ∀ c : Char, c.toNat < 128 → pyW c = wordAscii c)
    (title_param : Option String) :
    (∀ u ct cl, pyStrip (u.getD "") ≠ "" →
        api_download pyW u title_param (.response 200 ct cl)
          = .stream ([("Content-Type", ct.getD "video/mp4"),
                      ("Content-Disposition", contentDisposition
                        (pyQuote (safe_title pyW (effectiveTitle title_param))))] ++
                     (if cl.getD "" ≠ "" then [("Content-Length", cl.getD "")] else [])))
    ∧ (∀ ch ∈ (pyQuote (safe_title pyW (effectiveTitle title_param))).data,
        goodChar ch = true ∧ ch ≠ '"' ∧ ch ≠ '/' ∧ ch ≠ '\\' ∧ 32 ≤ ch.toNat)
    ∧ ((title_param = none ∨ pyStrip (title_param.getD "") = "") →
        pyQuote (safe_title pyW (effectiveTitle title_param)) = "video") := by
  refine ⟨fun u ct cl hu => ?_, fun ch hch => ?_, fun hblank => ?_⟩
  · simp [api_download, hu, effectiveTitle]
  · have hg := pyQuote_safe_title_good pyW hW (effectiveTitle title_param) ch hch
    exact ⟨hg, goodChar_excludes ch hg⟩
  · have hvid : effectiveTitle title_param = "video" := by
      rcases hblank with rfl | hz
      · rfl
      · cases title_param with
        | none => rfl
        | some s =>
          have hz2 : pyStrip s = "" := hz
          simp [effectiveTitle, hz2, pyOr]
    rw [hvid]
    have hkeep : ∀ c : Char, c.toNat < 128 → wordAscii c = true → keepChar pyW c = true := by
      intro c hlt hw
      simp [keepChar, hW c hlt, hw]
    have hst : safe_title pyW "video" = "video" := by
      have hd : "video".data = ['v', 'i', 'd', 'e', 'o'] := rfl
      simp only [safe_title, hd, List.map_cons, List.map_nil,
        hkeep 'v' (by decide) (by decide), hkeep 'i' (by decide) (by decide),
        hkeep 'd' (by decide) (by decide), hkeep 'e' (by decide) (by decide),
        hkeep 'o' (by decide) (by decide), if_true]
      rfl
    rw [hst]
    decide

theorem api_download_filename_sanitized_witness :
    api_download wordAscii (some "http://v") (some "my/bad title!") (.response 200 none none)
      = .stream [("Content-Type", "video/mp4"),
                 ("Content-Disposition", contentDisposition "my_bad_title_")]
    ∧ pyQuote (safe_title wordAscii (effectiveTitle (some "  "))) = "video" := by
  have h := api_download_filename_sanitized wordAscii (fun c _ => rfl) (some "my/bad title!")
  have h2 := api_download_filename_sanitized wordAscii (fun c _ => rfl) (some "  ")
  constructor
  · rw [h.1 (some "http://v") none none (by decide)]
    decide
  · exact h2.2.2 (Or.inr (by decide))

/-- C2 counterexample: a caught `requests.RequestException` whose `str(e)`
is empty produces the failure result `{success: false, error: ""}` — a
failure result whose error string is empty, contradicting the claim that
every failure result carries a non-empty error string. -/
theorem api_download_empty_error_on_exception :
    api_download wordAscii (some "http://v") none (.exn "")
      = .json [("success", .b false), ("error", .s "")] 502
    ∧ jstr (jget [("success", JVal.b false), ("error", JVal.s "")] "error") = "" :=
  ⟨rfl, rfl⟩

/-- C2 (amended): every JSON result `api_download` produces is a failure of
the uniform shape `{success: false, error: <string>}` — no stage failure
escapes as a raised fault: a non-200 upstream status becomes such a result
with status 502 and a non-empty error message, and a caught
`requests.RequestException` becomes such a result with status 502 whose
error is `str(e)` verbatim (empty only when the message of the exception is
empty).  `_resolve_video` failures likewise carry a fixed non-empty error. -/
theorem api_download_failure_uniform (pyW : Char → Bool) (u t : Option String)
    (up : UpstreamOutcome) :
    (∀ body st, api_download pyW u t up = .json body st →
        jget body "success" = some (.b false) ∧ ∃ e, jget body "error" = some (.s e))
    ∧ (pyStrip (u.getD "") ≠ "" →
        (∀ s ct cl, up = .response s ct cl → s ≠ 200 →
          api_download pyW u t up
            = .json [("success", .b false), ("error", .s ("上游返回 " ++ toString s))] 502
            ∧ ("上游返回 " ++ toString s) ≠ "")
        ∧ (∀ msg, up = .exn msg →
            api_download pyW u t up = .json [("success", .b false), ("error", .s msg)] 502))
    ∧ (∀ (resolveFn : VideoRecord → VideoRecord) (url : String),
        jtruthy (jget (resolve_video resolveFn url) "success") = false →
          jget (resolve_video resolveFn url) "error"
            = some (.s "解析失败，请检查链接是否有效")) := by
  refine ⟨?_, fun hu => ⟨fun s ct cl hup hs => ?_, fun msg hup => ?_⟩, ?_⟩
  · intro body st heq
    by_cases hu : pyStrip (u.getD "") = ""
    · simp [api_download, hu] at heq
      obtain ⟨rfl, -⟩ := heq
      exact ⟨rfl, "缺少 url 参数", rfl⟩
    · cases up with
      | exn msg =>
        simp [api_download, hu] at heq
        obtain ⟨rfl, -⟩ := heq
        exact ⟨rfl, msg, rfl⟩
      | response s ct cl =>
        by_cases hs : s = 200
        · subst hs
          simp [api_download, hu] at heq
        · simp [api_download, hu, hs] at heq
          obtain ⟨rfl, -⟩ := heq
          exact ⟨rfl, "上游返回 " ++ toString s, rfl⟩
  · subst hup
    refine ⟨by simp [api_download, hu, hs], ?_⟩
    intro hcontra
    have : ("上游返回 " ++ toString s).length = 0 := by rw [hcontra]; rfl
    rw [String.length_append] at this
    have h5 : ("上游返回 " : String).length = 5 := by decide
    omega
  · subst hup
    simp [api_download, hu]
  · intro resolveFn url hf
    by_cases h : (resolveFn (initialRecord url)).video_play_url = ""
    · rw [resolve_video_of_empty resolveFn url h]
      rfl
    · rw [resolve_video_of_nonempty resolveFn url h] at hf
      exact Bool.noConfusion hf

theorem api_download_failure_uniform_witness :
    api_download wordAscii (some "http://v") none (.response 403 none none)
      = .json [("success", .b false), ("error", .s ("上游返回 " ++ toString 403))] 502
    ∧ ("上游返回 " ++ toString 403) ≠ ""
    ∧ jget [("success", JVal.b false), ("error", JVal.s ("上游返回 " ++ toString 403))]
        "success" = some (.b false) := by
  have h := api_download_failure_uniform wordAscii (some "http://v") none
    (.response 403 none none)
  have h2 := (h.2.1 (by decide)).1 403 none none rfl (by decide)
  have h3 := (h.1 _ 502 h2.1).1
  exact ⟨h2.1, h2.2, h3⟩

end DouyinApp
